import Mathlib

set_option linter.unusedVariables false

namespace LeaveBot

/-! Shallow embedding of `src/bot.py`, the moderation-and-broadcast core of a
Telegram bot.  Python dicts are modelled as association lists, the
`active_chats` set as a duplicate-free insertion list, wall-clock instants as
integer seconds, and the Telegram gateway as boolean oracles stating whether a
given outbound call succeeds.  Each handler returns the new global state
together with the list of outbound calls it attempted.  Formatting-entity
metadata and the dynamic portions of reply strings are elided since they never
influence control flow or state. -/

/-- Association-list lookup, modelling Python `dict.get` / `in`. -/
def lookupKey {α β : Type} [DecidableEq α] : List (α × β) → α → Option β
  | [], _ => none
  | (k, v) :: rest, key => if k = key then some v else lookupKey rest key

/-- Remove every binding of `key`, modelling `dict.pop(key, None)`. -/
def eraseKey {α β : Type} [DecidableEq α] : List (α × β) → α → List (α × β)
  | [], _ => []
  | (k, v) :: rest, key =>
    if k = key then eraseKey rest key else (k, v) :: eraseKey rest key

/-- Overwriting insert, modelling `d[key] = value`. -/
def insertKey {α β : Type} [DecidableEq α] (l : List (α × β)) (key : α) (v : β) :
    List (α × β) :=
  (key, v) :: eraseKey l key

/-- The key set of an association list. -/
def keysOf {α β : Type} (l : List (α × β)) : List α := l.map Prod.fst

/-- Idempotent insertion, modelling `active_chats.add(chat.id)`. -/
def insertChat (l : List Int) (c : Int) : List Int := if c ∈ l then l else c :: l

/-- `BAN_DURATION_HOURS = 1` from the configuration block of `bot.py`. -/
def BAN_DURATION_HOURS : Int := 1

/-- The ban window in seconds: `timedelta(hours=BAN_DURATION_HOURS)`. -/
def banWindowSeconds : Int := BAN_DURATION_HOURS * 3600

/-- One entry of the `user_join_times` dict (`track_user_join`, bot.py:139). -/
structure UserData where
  join_time : Int
  user_id : Int
  chat_id : Int
  username : String
  chat_title : String
deriving DecidableEq

/-- A collected broadcast item: the tagged payload stored in `message_data`
(bot.py:278–318).  Formatting entities are elided. -/
inductive BItem where
  | text (content : String)
  | photo (file_id : String) (caption : Option String)
  | video (file_id : String) (caption : Option String)
  | document (file_id : String) (caption : Option String)
  | sticker (file_id : String)
deriving DecidableEq

/-- One entry of the `broadcast_data` dict (bot.py:236–239). -/
structure Session where
  messages : List BItem
  start_time : Int
deriving DecidableEq

/-- The three module-level stores of bot.py:42–44. -/
structure BotState where
  user_join_times : List ((Int × Int) × UserData)
  broadcast_data : List (Int × Session)
  active_chats : List Int
deriving DecidableEq

/-- An attempted outbound gateway call, with a success flag. -/
inductive Outbound where
  | replyText (text : String)
  | welcome (chat_id : Int) (ok : Bool)
  | banAttempt (chat_id user_id : Int) (ok : Bool)
  | banNotice (chat_id : Int) (ok : Bool)
  | banFailNotice (chat_id : Int) (ok : Bool)
  | broadcastSend (chat_id : Int) (item : BItem) (ok : Bool)
deriving DecidableEq

def notAuthorizedMsg : String := "You are not authorized to use this command."
def welcomeMsg : String := "Hello! I am a moderation bot."
def helpMsg : String := "Available Commands"
def statsMsg : String := "Bot Statistics"
def broadcastStartedMsg : String := "Broadcast Mode Started!"
def unsupportedMsg : String := "Unsupported message type."
def collectedMsg : String := "Message collected."
def noMessagesMsg : String := "No messages to broadcast. Use /broadcast first."
def cancelledMsg : String := "Broadcast cancelled."
def noActiveBroadcastMsg : String := "No active broadcast to cancel."

/-- The status field of a Telegram chat-member update. -/
structure MembershipEvent where
  chat_id : Int
  chat_title : String
  user_id : Int
  username : String
  old_status : String
  new_status : String
deriving DecidableEq

/-- Join guard, bot.py:135: `old_status in ['left', 'kicked', 'restricted']`. -/
def joinOldStatuses : List String := ["left", "kicked", "restricted"]

/-- Join guard, bot.py:136: `new_status in ['member', 'administrator', 'creator']`. -/
def joinNewStatuses : List String := ["member", "administrator", "creator"]

/-- Leave guard, bot.py:170: `old_status in ['member', 'administrator', 'restricted']`. -/
def leaveOldStatuses : List String := ["member", "administrator", "restricted"]

/-- Leave guard, bot.py:171: `new_status in ['left', 'kicked']`. -/
def leaveNewStatuses : List String := ["left", "kicked"]

/-- `track_user_join` (bot.py:125–158): on a join transition, upsert the
membership record with the current time, register the chat, and attempt a
welcome message (best effort). -/
def track_user_join (msgOk : Int → Bool) (now : Int) (ev : MembershipEvent)
    (st : BotState) : BotState × List Outbound :=
  if ev.old_status ∈ joinOldStatuses ∧ ev.new_status ∈ joinNewStatuses then
    let ud : UserData :=
      { join_time := now, user_id := ev.user_id, chat_id := ev.chat_id,
        username := ev.username, chat_title := ev.chat_title }
    ({ st with
        user_join_times := insertKey st.user_join_times (ev.chat_id, ev.user_id) ud,
        active_chats := insertChat st.active_chats ev.chat_id },
     [Outbound.welcome ev.chat_id (msgOk ev.chat_id)])
  else (st, [])

/-- The try/except block of bot.py:182–215: ban, then announce the ban; if the
ban call or the announcement raises, attempt a best-effort failure notice. -/
def banEffects (banOk : Int → Int → Bool) (msgOk : Int → Bool) (c u : Int) :
    List Outbound :=
  if banOk c u then
    if msgOk c then
      [Outbound.banAttempt c u true, Outbound.banNotice c true]
    else
      [Outbound.banAttempt c u true, Outbound.banNotice c false,
       Outbound.banFailNotice c (msgOk c)]
  else
    [Outbound.banAttempt c u false, Outbound.banFailNotice c (msgOk c)]

/-- `track_user_leave` (bot.py:160–222): on a leave transition with a tracked
record, ban when the stay was shorter than the ban window, and remove the
record unconditionally (bot.py:218 runs regardless of the ban outcome). -/
def track_user_leave (banOk : Int → Int → Bool) (msgOk : Int → Bool) (now : Int)
    (ev : MembershipEvent) (st : BotState) : BotState × List Outbound :=
  if ev.old_status ∈ leaveOldStatuses ∧ ev.new_status ∈ leaveNewStatuses then
    match lookupKey st.user_join_times (ev.chat_id, ev.user_id) with
    | some ud =>
      let time_in_chat : Int := now - ud.join_time
      let effects :=
        if time_in_chat < banWindowSeconds then
          banEffects banOk msgOk ev.chat_id ev.user_id
        else []
      ({ st with
          user_join_times := eraseKey st.user_join_times (ev.chat_id, ev.user_id) },
       effects)
    | none => (st, [])
  else (st, [])

/-- A membership update is routed to both chat-member handlers
(bot.py:502–503); their guards are disjoint, so order is immaterial. -/
def handle_membership_changed (banOk : Int → Int → Bool) (msgOk : Int → Bool)
    (now : Int) (ev : MembershipEvent) (st : BotState) : BotState × List Outbound :=
  let r1 := track_user_join msgOk now ev st
  let r2 := track_user_leave banOk msgOk now ev r1.1
  (r2.1, r1.2 ++ r2.2)

/-- `/start` handler (bot.py:54–76): registers the chat, if any, and replies. -/
def start (chat_id : Option Int) (st : BotState) : BotState × List Outbound :=
  let st' :=
    match chat_id with
    | some c => { st with active_chats := insertChat st.active_chats c }
    | none => st
  (st', [Outbound.replyText welcomeMsg])

/-- `/help` handler (bot.py:78–98): reply only, no state change. -/
def help_command (st : BotState) : BotState × List Outbound :=
  (st, [Outbound.replyText helpMsg])

/-- `/stats` handler (bot.py:100–123): admin gate, then a statistics reply. -/
def stats (admins : List Int) (sender_id : Int) (st : BotState) :
    BotState × List Outbound :=
  if sender_id ∈ admins then (st, [Outbound.replyText statsMsg])
  else (st, [Outbound.replyText notAuthorizedMsg])

/-- `start_broadcast` (bot.py:225–259): admin gate, then install a fresh empty
session for the sender (overwriting any prior one). -/
def start_broadcast (admins : List Int) (now : Int) (sender_id : Int)
    (st : BotState) : BotState × List Outbound :=
  if sender_id ∈ admins then
    ({ st with
        broadcast_data := insertKey st.broadcast_data sender_id
          { messages := [], start_time := now } },
     [Outbound.replyText broadcastStartedMsg])
  else (st, [Outbound.replyText notAuthorizedMsg])

/-- The content of a non-command inbound message (bot.py:278–321). -/
inductive MsgContent where
  | text (content : String)
  | photo (file_id : String) (caption : Option String)
  | video (file_id : String) (caption : Option String)
  | document (file_id : String) (caption : Option String)
  | sticker (file_id : String)
  | other
deriving DecidableEq

/-- A non-command inbound message. -/
structure MessageEvent where
  sender_id : Int
  chat_id : Int
  content : MsgContent
deriving DecidableEq

/-- The if/elif chain of bot.py:278–318 building `message_data`; the final
`else` (bot.py:320–322) rejects the content as unsupported. -/
def classify : MsgContent → Option BItem
  | .text content => some (.text content)
  | .photo fid cap => some (.photo fid cap)
  | .video fid cap => some (.video fid cap)
  | .document fid cap => some (.document fid cap)
  | .sticker fid => some (.sticker fid)
  | .other => none

/-- `collect_broadcast_message` (bot.py:261–341): ignore senders with no live
session; reject unsupported content; otherwise append to the session. -/
def collect_broadcast_message (m : MessageEvent) (st : BotState) :
    BotState × List Outbound :=
  match lookupKey st.broadcast_data m.sender_id with
  | none => (st, [])
  | some sess =>
    match classify m.content with
    | none => (st, [Outbound.replyText unsupportedMsg])
    | some item =>
      ({ st with
          broadcast_data := insertKey st.broadcast_data m.sender_id
            { sess with messages := sess.messages ++ [item] } },
       [Outbound.replyText collectedMsg])

/-- The inner for-loop of `send_broadcast` (bot.py:376–412): send each item to
one chat in order; the first raising send aborts the rest of that chat. -/
def sendToChat (sendOk : Int → BItem → Bool) (chat_id : Int) :
    List BItem → List Outbound × Bool
  | [] => ([], true)
  | item :: rest =>
    if sendOk chat_id item then
      let r := sendToChat sendOk chat_id rest
      (Outbound.broadcastSend chat_id item true :: r.1, r.2)
    else ([Outbound.broadcastSend chat_id item false], false)

/-- The outer for-loop of `send_broadcast` (bot.py:373–422): per-chat
try/except, counting successes and failures.  Returns (trace, succeeded,
failed). -/
def dispatchLoop (sendOk : Int → BItem → Bool) (items : List BItem) :
    List Int → List Outbound × Nat × Nat
  | [] => ([], 0, 0)
  | c :: cs =>
    let r := sendToChat sendOk c items
    let rest := dispatchLoop sendOk items cs
    (r.1 ++ rest.1,
     if r.2 then rest.2.1 + 1 else rest.2.1,
     if r.2 then rest.2.2 else rest.2.2 + 1)

/-- The final report of bot.py:429–436. -/
structure BroadcastReport where
  succeeded : Nat
  failed : Nat
  items_per_chat : Nat
  total_deliveries : Nat
deriving DecidableEq

/-- Outcome of a `/send_broadcast` invocation. -/
inductive SendResult where
  | notAuthorized
  | noMessages
  | noActiveChats
  | completed (report : BroadcastReport) (trace : List Outbound)
deriving DecidableEq

/-- `send_broadcast` (bot.py:343–442): admin gate; a missing session and an
empty session produce the same refusal (bot.py:354); an empty chat registry
returns early WITHOUT removing the session (bot.py:365–367); otherwise the
items are dispatched to every registered chat and the session is popped
(bot.py:426). -/
def send_broadcast (admins : List Int) (sendOk : Int → BItem → Bool)
    (sender_id : Int) (st : BotState) : BotState × SendResult :=
  if sender_id ∈ admins then
    match lookupKey st.broadcast_data sender_id with
    | none => (st, SendResult.noMessages)
    | some sess =>
      if sess.messages = [] then (st, SendResult.noMessages)
      else if st.active_chats = [] then (st, SendResult.noActiveChats)
      else
        let r := dispatchLoop sendOk sess.messages st.active_chats
        let message_count := sess.messages.length
        ({ st with broadcast_data := eraseKey st.broadcast_data sender_id },
         SendResult.completed
           { succeeded := r.2.1, failed := r.2.2, items_per_chat := message_count,
             total_deliveries := r.2.1 * message_count }
           r.1)
  else (st, SendResult.notAuthorized)

/-- `cancel_broadcast` (bot.py:444–462): note there is NO admin gate here; the
handler only checks whether the sender has a live session. -/
def cancel_broadcast (sender_id : Int) (st : BotState) : BotState × List Outbound :=
  match lookupKey st.broadcast_data sender_id with
  | some _ =>
    ({ st with broadcast_data := eraseKey st.broadcast_data sender_id },
     [Outbound.replyText cancelledMsg])
  | none => (st, [Outbound.replyText noActiveBroadcastMsg])

/-- The inbound events the router (bot.py:482–514) delivers to the core. -/
inductive Event where
  | cmdStart (sender_id : Int) (chat_id : Option Int)
  | cmdHelp (sender_id : Int) (chat_id : Int)
  | cmdStats (sender_id : Int) (chat_id : Int)
  | cmdBroadcast (sender_id : Int) (now : Int)
  | cmdSendBroadcast (sender_id : Int)
  | cmdCancelBroadcast (sender_id : Int)
  | message (m : MessageEvent)
  | membershipChanged (now : Int) (m : MembershipEvent)
deriving DecidableEq

/-- State transition of the whole core on one inbound event. -/
def handleEvent (admins : List Int) (banOk : Int → Int → Bool)
    (sendOk : Int → BItem → Bool) (msgOk : Int → Bool) (e : Event)
    (st : BotState) : BotState :=
  match e with
  | .cmdStart _ chat_id => (start chat_id st).1
  | .cmdHelp _ _ => (help_command st).1
  | .cmdStats sender_id _ => (stats admins sender_id st).1
  | .cmdBroadcast sender_id now => (start_broadcast admins now sender_id st).1
  | .cmdSendBroadcast sender_id => (send_broadcast admins sendOk sender_id st).1
  | .cmdCancelBroadcast sender_id => (cancel_broadcast sender_id st).1
  | .message m => (collect_broadcast_message m st).1
  | .membershipChanged now m => (handle_membership_changed banOk msgOk now m st).1

/-- Fold a sequence of inbound events through the core. -/
def runEvents (admins : List Int) (banOk : Int → Int → Bool)
    (sendOk : Int → BItem → Bool) (msgOk : Int → Bool) (es : List Event)
    (st : BotState) : BotState :=
  es.foldl (fun s e => handleEvent admins banOk sendOk msgOk e s) st

/-- The broadcast sends addressed to chat `c` within a trace, in order. -/
def sendsTo (tr : List Outbound) (c : Int) : List (BItem × Bool) :=
  tr.filterMap fun o =>
    match o with
    | .broadcastSend c' item ok => if c' = c then some (item, ok) else none
    | _ => none

/-- The per-chat attempt list: every item up to and including the first
failure, each paired with its outcome. -/
def attemptsFor (sendOk : Int → BItem → Bool) (c : Int) : List BItem → List (BItem × Bool)
  | [] => []
  | i :: rest =>
    if sendOk c i then (i, true) :: attemptsFor sendOk c rest else [(i, false)]

def emptyState : BotState :=
  { user_join_times := [], broadcast_data := [], active_chats := [] }

/-! Concrete instances used to evaluate the development on closed inputs. -/

def adminsEx : List Int := [1]

def trueBan : Int → Int → Bool := fun _ _ => true

/-- A gateway whose ban calls always fail (bot lacks admin rights). -/
def falseBan : Int → Int → Bool := fun _ _ => false

def trueSend : Int → BItem → Bool := fun _ _ => true

def trueMsg : Int → Bool := fun _ => true

/-- A gateway in which chat 20 rejects the item `text "b"`. -/
def sendOkEx : Int → BItem → Bool :=
  fun c i => if c = 20 ∧ i = BItem.text "b" then false else true

def itemsEx : List BItem := [BItem.text "a", BItem.text "b"]

def chatsEx : List Int := [10, 20]

/-- A staged two-item session. -/
def sessEx : Session := { messages := itemsEx, start_time := 0 }

/-- Operator 1 has the two-item session staged; chats 10 and 20 registered. -/
def st5 : BotState :=
  { user_join_times := [], broadcast_data := [(1, sessEx)], active_chats := chatsEx }

/-- `st5` after its session has been consumed. -/
def st5' : BotState :=
  { user_join_times := [], broadcast_data := [], active_chats := chatsEx }

/-- The report for dispatching `itemsEx` over `chatsEx` under `sendOkEx`. -/
def reportEx : BroadcastReport :=
  { succeeded := 1, failed := 1, items_per_chat := 2, total_deliveries := 2 }

/-- The corresponding send trace: chat 10 gets both items, chat 20 stops at
its failing second item. -/
def trEx : List Outbound :=
  [Outbound.broadcastSend 10 (BItem.text "a") true,
   Outbound.broadcastSend 10 (BItem.text "b") true,
   Outbound.broadcastSend 20 (BItem.text "a") true,
   Outbound.broadcastSend 20 (BItem.text "b") false]

/-- A plain text message from operator 1 in chat 5. -/
def msgEx : MessageEvent := { sender_id := 1, chat_id := 5, content := MsgContent.text "c" }

/-- Operator 1 has a live one-item session but the chat registry is empty. -/
def st4 : BotState :=
  { user_join_times := [],
    broadcast_data := [(1, { messages := [BItem.text "hi"], start_time := 0 })],
    active_chats := [] }

/-- A state whose registry already contains chat 7. -/
def st7 : BotState :=
  { user_join_times := [], broadcast_data := [], active_chats := [7] }

/-- Operator 1 has a live empty session; the registry is empty. -/
def st8 : BotState :=
  { user_join_times := [],
    broadcast_data := [(1, { messages := [], start_time := 0 })],
    active_chats := [] }

/-- A join transition for user 42 into chat 100. -/
def jevEx : MembershipEvent :=
  { chat_id := 100, chat_title := "Demo", user_id := 42, username := "alice",
    old_status := "left", new_status := "member" }

/-- The matching leave transition for user 42 out of chat 100. -/
def levEx : MembershipEvent :=
  { chat_id := 100, chat_title := "Demo", user_id := 42, username := "alice",
    old_status := "member", new_status := "left" }

/-- A creator leaving: neither the join nor the leave guard fires. -/
def creatorLeaveEx : MembershipEvent :=
  { chat_id := 100, chat_title := "Demo", user_id := 42, username := "alice",
    old_status := "creator", new_status := "left" }

/-- A state tracking user 42 in chat 100 since time 0. -/
def st10 : BotState :=
  { user_join_times :=
      [((100, 42),
        { join_time := 0, user_id := 42, chat_id := 100, username := "alice",
          chat_title := "Demo" })],
    broadcast_data := [], active_chats := [100] }

/-! Lemmas about the association-list and set primitives. -/

theorem lookupKey_eraseKey_self {α β : Type} [DecidableEq α] (l : List (α × β)) (k : α) :
    lookupKey (eraseKey l k) k = none := by
  induction l with
  | nil => rfl
  | cons hd tl ih =>
    obtain ⟨k', v⟩ := hd
    by_cases h : k' = k
    · simpa [eraseKey, h] using ih
    · simpa [eraseKey, lookupKey, h] using ih

theorem lookupKey_eraseKey_ne {α β : Type} [DecidableEq α] (l : List (α × β))
    (k k' : α) (h : k' ≠ k) : lookupKey (eraseKey l k) k' = lookupKey l k' := by
  induction l with
  | nil => rfl
  | cons hd tl ih =>
    obtain ⟨k0, v⟩ := hd
    by_cases h0 : k0 = k
    · have hkk : k ≠ k' := fun e => h e.symm
      subst h0
      simp [eraseKey, lookupKey, hkk, ih]
    · by_cases h1 : k0 = k'
      · subst h1
        simp [eraseKey, lookupKey, h0, h]
      · simp [eraseKey, lookupKey, h0, h1, ih]

theorem lookupKey_insertKey_self {α β : Type} [DecidableEq α] (l : List (α × β))
    (k : α) (v : β) : lookupKey (insertKey l k v) k = some v := by
  simp [insertKey, lookupKey]

theorem lookupKey_insertKey_ne {α β : Type} [DecidableEq α] (l : List (α × β))
    (k k' : α) (v : β) (h : k' ≠ k) :
    lookupKey (insertKey l k v) k' = lookupKey l k' := by
  have : k ≠ k' := fun e => h e.symm
  simp [insertKey, lookupKey, this, lookupKey_eraseKey_ne l k k' h]

theorem lookupKey_some_mem_keysOf {α β : Type} [DecidableEq α] (l : List (α × β))
    (k : α) (v : β) (h : lookupKey l k = some v) : k ∈ keysOf l := by
  induction l with
  | nil => simp [lookupKey] at h
  | cons hd tl ih =>
    obtain ⟨k0, v0⟩ := hd
    by_cases h0 : k0 = k
    · simp [keysOf, h0]
    · simp only [lookupKey, if_neg h0] at h
      simpa [keysOf] using Or.inr (ih h)

theorem mem_keysOf_eraseKey {α β : Type} [DecidableEq α] (l : List (α × β))
    (k k' : α) (h : k' ∈ keysOf (eraseKey l k)) : k' ∈ keysOf l := by
  induction l with
  | nil => simpa [eraseKey] using h
  | cons hd tl ih =>
    obtain ⟨k0, v0⟩ := hd
    by_cases h0 : k0 = k
    · simp only [eraseKey, if_pos h0] at h
      simpa [keysOf] using Or.inr (ih h)
    · simp only [eraseKey, if_neg h0, keysOf, List.map_cons, List.mem_cons] at h
      rcases h with h | h
      · simp [keysOf, h]
      · simpa [keysOf] using Or.inr (ih h)

theorem mem_keysOf_insertKey {α β : Type} [DecidableEq α] (l : List (α × β))
    (k k' : α) (v : β) (h : k' ∈ keysOf (insertKey l k v)) :
    k' = k ∨ k' ∈ keysOf l := by
  simp only [insertKey, keysOf, List.map_cons, List.mem_cons] at h
  rcases h with h | h
  · exact Or.inl h
  · exact Or.inr (mem_keysOf_eraseKey l k k' h)

theorem mem_insertChat_of_mem {l : List Int} {x : Int} (c : Int) (h : x ∈ l) :
    x ∈ insertChat l c := by
  unfold insertChat
  split
  · exact h
  · exact List.mem_cons_of_mem c h

/-! Lemmas about the dispatch loop. -/

theorem sendToChat_ok (sendOk : Int → BItem → Bool) (c : Int) (items : List BItem) :
    (sendToChat sendOk c items).2 = items.all (sendOk c) := by
  induction items with
  | nil => rfl
  | cons i rest ih => by_cases h : sendOk c i <;> simp [sendToChat, h, ih, List.all_cons]

theorem dispatchLoop_counts (sendOk : Int → BItem → Bool) (items : List BItem)
    (chats : List Int) :
    (dispatchLoop sendOk items chats).2.1 =
      (chats.filter fun c => items.all (sendOk c)).length ∧
    (dispatchLoop sendOk items chats).2.2 =
      (chats.filter fun c => !(items.all (sendOk c))).length := by
  induction chats with
  | nil => exact ⟨rfl, rfl⟩
  | cons c cs ih =>
    by_cases h : items.all (sendOk c) = true
    · simp [dispatchLoop, sendToChat_ok, h, ih.1, ih.2, List.filter_cons]
    · simp only [Bool.not_eq_true] at h
      simp [dispatchLoop, sendToChat_ok, h, ih.1, ih.2, List.filter_cons]

theorem sendsTo_append (tr1 tr2 : List Outbound) (c : Int) :
    sendsTo (tr1 ++ tr2) c = sendsTo tr1 c ++ sendsTo tr2 c := by
  simp [sendsTo, List.filterMap_append]

theorem sendsTo_cons_send (c' : Int) (item : BItem) (ok : Bool) (tr : List Outbound)
    (c : Int) :
    sendsTo (Outbound.broadcastSend c' item ok :: tr) c =
      if c' = c then (item, ok) :: sendsTo tr c else sendsTo tr c := by
  by_cases h : c' = c <;> simp [sendsTo, List.filterMap_cons, h]

theorem sendsTo_sendToChat_ne (sendOk : Int → BItem → Bool) (c c' : Int)
    (items : List BItem) (h : c ≠ c') :
    sendsTo (sendToChat sendOk c items).1 c' = [] := by
  induction items with
  | nil => rfl
  | cons i rest ih =>
    by_cases hs : sendOk c i
    · simp only [sendToChat, if_pos hs]
      rw [sendsTo_cons_send, if_neg h, ih]
    · simp only [sendToChat, if_neg hs]
      rw [sendsTo_cons_send, if_neg h]
      rfl

theorem sendsTo_sendToChat_self (sendOk : Int → BItem → Bool) (c : Int)
    (items : List BItem) :
    sendsTo (sendToChat sendOk c items).1 c = attemptsFor sendOk c items := by
  induction items with
  | nil => rfl
  | cons i rest ih =>
    by_cases hs : sendOk c i
    · simp only [sendToChat, if_pos hs]
      rw [sendsTo_cons_send, if_pos rfl, ih]
      simp [attemptsFor, hs]
    · simp only [sendToChat, if_neg hs]
      rw [sendsTo_cons_send, if_pos rfl]
      simp [attemptsFor, hs]
      rfl

theorem sendsTo_dispatchLoop_notMem (sendOk : Int → BItem → Bool) (items : List BItem)
    (chats : List Int) (c : Int) (h : c ∉ chats) :
    sendsTo (dispatchLoop sendOk items chats).1 c = [] := by
  induction chats with
  | nil => rfl
  | cons c0 cs ih =>
    simp only [List.mem_cons, not_or] at h
    have hne : c0 ≠ c := fun e => h.1 e.symm
    simp [dispatchLoop, sendsTo_append, sendsTo_sendToChat_ne sendOk c0 c items hne,
      ih h.2]

theorem sendsTo_dispatchLoop_mem (sendOk : Int → BItem → Bool) (items : List BItem)
    (chats : List Int) (c : Int) (hnd : chats.Nodup) (h : c ∈ chats) :
    sendsTo (dispatchLoop sendOk items chats).1 c = attemptsFor sendOk c items := by
  induction chats with
  | nil => cases h
  | cons c0 cs ih =>
    rw [List.nodup_cons] at hnd
    rcases List.mem_cons.mp h with rfl | hmem
    · simp [dispatchLoop, sendsTo_append, sendsTo_sendToChat_self,
        sendsTo_dispatchLoop_notMem sendOk items cs c hnd.1]
    · have hne : c0 ≠ c := fun e => hnd.1 (e ▸ hmem)
      simp [dispatchLoop, sendsTo_append, sendsTo_sendToChat_ne sendOk c0 c items hne,
        ih hnd.2 hmem]

theorem attemptsFor_fst_all (sendOk : Int → BItem → Bool) (c : Int) (items : List BItem)
    (h : items.all (sendOk c) = true) :
    (attemptsFor sendOk c items).map Prod.fst = items := by
  induction items with
  | nil => rfl
  | cons i rest ih =>
    simp only [List.all_cons, Bool.and_eq_true] at h
    simp [attemptsFor, h.1, ih h.2]

theorem attemptsFor_fst_fail (sendOk : Int → BItem → Bool) (c : Int) (items : List BItem)
    (h : items.all (sendOk c) = false) :
    (attemptsFor sendOk c items).map Prod.fst =
      items.take ((items.takeWhile (sendOk c)).length + 1) := by
  induction items with
  | nil => simp at h
  | cons i rest ih =>
    by_cases hi : sendOk c i
    · have hrest : rest.all (sendOk c) = false := by
        simpa [List.all_cons, hi] using h
      simp [attemptsFor, hi, List.takeWhile_cons, ih hrest]
    · simp [attemptsFor, hi, List.takeWhile_cons]

theorem attemptsFor_fst_take (sendOk : Int → BItem → Bool) (c : Int)
    (items : List BItem) :
    ∃ k, (attemptsFor sendOk c items).map Prod.fst = items.take k := by
  by_cases h : items.all (sendOk c) = true
  · exact ⟨items.length, by rw [attemptsFor_fst_all sendOk c items h, List.take_length]⟩
  · simp only [Bool.not_eq_true] at h
    exact ⟨_, attemptsFor_fst_fail sendOk c items h⟩

theorem attemptsFor_ne_nil (sendOk : Int → BItem → Bool) (c : Int) (items : List BItem)
    (h : items ≠ []) : attemptsFor sendOk c items ≠ [] := by
  cases items with
  | nil => exact absurd rfl h
  | cons i rest => by_cases hi : sendOk c i <;> simp [attemptsFor, hi]

theorem banAttempt_mem_banEffects (banOk : Int → Int → Bool) (msgOk : Int → Bool)
    (c u : Int) :
    Outbound.banAttempt c u (banOk c u) ∈ banEffects banOk msgOk c u := by
  unfold banEffects
  by_cases hb : banOk c u <;> by_cases hm : msgOk c <;> simp [hb, hm]

/-! The claims. -/

/-- C1: for a join-then-leave sequence on the same (chat, user), the leave
issues a ban exactly when the elapsed time is strictly below the one-hour ban
window; at or above the window (including exactly equal) no ban is attempted. -/
theorem C1_join_then_leave_ban_iff (banOk : Int → Int → Bool) (msgOk : Int → Bool)
    (t0 t1 : Int) (jev lev : MembershipEvent) (st : BotState)
    (hjo : jev.old_status ∈ joinOldStatuses) (hjn : jev.new_status ∈ joinNewStatuses)
    (hlo : lev.old_status ∈ leaveOldStatuses) (hln : lev.new_status ∈ leaveNewStatuses)
    (hc : lev.chat_id = jev.chat_id) (hu : lev.user_id = jev.user_id) :
    (∃ ok, Outbound.banAttempt lev.chat_id lev.user_id ok ∈
        (track_user_leave banOk msgOk t1 lev
          (track_user_join msgOk t0 jev st).1).2) ↔
      t1 - t0 < banWindowSeconds := by
  have hjt : (track_user_join msgOk t0 jev st).1.user_join_times =
      insertKey st.user_join_times (jev.chat_id, jev.user_id)
        { join_time := t0, user_id := jev.user_id, chat_id := jev.chat_id,
          username := jev.username, chat_title := jev.chat_title } := by
    simp [track_user_join, hjo, hjn]
  have hlook : lookupKey (track_user_join msgOk t0 jev st).1.user_join_times
      (lev.chat_id, lev.user_id) =
      some { join_time := t0, user_id := jev.user_id, chat_id := jev.chat_id,
             username := jev.username, chat_title := jev.chat_title } := by
    rw [hjt, hc, hu]
    exact lookupKey_insertKey_self _ _ _
  have hrun : track_user_leave banOk msgOk t1 lev (track_user_join msgOk t0 jev st).1 =
      ({ (track_user_join msgOk t0 jev st).1 with
          user_join_times :=
            eraseKey (track_user_join msgOk t0 jev st).1.user_join_times
              (lev.chat_id, lev.user_id) },
       if t1 - t0 < banWindowSeconds then
         banEffects banOk msgOk lev.chat_id lev.user_id
       else []) := by
    unfold track_user_leave
    rw [if_pos ⟨hlo, hln⟩, hlook]
  rw [hrun]
  by_cases hlt : t1 - t0 < banWindowSeconds
  · simp only [if_pos hlt]
    constructor
    · intro _
      exact hlt
    · intro _
      exact ⟨banOk lev.chat_id lev.user_id,
        banAttempt_mem_banEffects banOk msgOk lev.chat_id lev.user_id⟩
  · simp only [if_neg hlt]
    constructor
    · rintro ⟨ok, hok⟩
      cases hok
    · intro h
      exact absurd h hlt

/-- C1 witness: user 42 joins chat 100 at t = 0 and leaves at t = 3700 s; the
elapsed time exceeds the window, so the ban-iff condition is settled. -/
theorem C1_witness :
    (∃ ok, Outbound.banAttempt levEx.chat_id levEx.user_id ok ∈
        (track_user_leave trueBan trueMsg 3700 levEx
          (track_user_join trueMsg 0 jevEx emptyState).1).2) ↔
      (3700 : Int) - 0 < banWindowSeconds :=
  C1_join_then_leave_ban_iff trueBan trueMsg 0 3700 jevEx levEx emptyState
    (by decide) (by decide) (by decide) (by decide) rfl rfl

/-- C2: a leave that finds a tracked record removes it for every gateway
outcome (within-grace, successful ban, failed ban), and a failed ban still
produces a best-effort failure notice to the chat. -/
theorem C2_leave_removes_record (banOk : Int → Int → Bool) (msgOk : Int → Bool)
    (now : Int) (ev : MembershipEvent) (st : BotState) (ud : UserData)
    (hlo : ev.old_status ∈ leaveOldStatuses) (hln : ev.new_status ∈ leaveNewStatuses)
    (hrec : lookupKey st.user_join_times (ev.chat_id, ev.user_id) = some ud) :
    lookupKey (track_user_leave banOk msgOk now ev st).1.user_join_times
        (ev.chat_id, ev.user_id) = none ∧
    (now - ud.join_time < banWindowSeconds → banOk ev.chat_id ev.user_id = false →
      Outbound.banFailNotice ev.chat_id (msgOk ev.chat_id) ∈
        (track_user_leave banOk msgOk now ev st).2) := by
  have hrun : track_user_leave banOk msgOk now ev st =
      ({ st with
          user_join_times := eraseKey st.user_join_times (ev.chat_id, ev.user_id) },
       if now - ud.join_time < banWindowSeconds then
         banEffects banOk msgOk ev.chat_id ev.user_id
       else []) := by
    unfold track_user_leave
    rw [if_pos ⟨hlo, hln⟩, hrec]
  constructor
  · rw [hrun]
    exact lookupKey_eraseKey_self st.user_join_times (ev.chat_id, ev.user_id)
  · intro hlt hb
    rw [hrun]
    simp only [if_pos hlt]
    unfold banEffects
    rw [if_neg (by simp [hb])]
    simp

/-- C2 witness: a short stay whose ban call fails; the record is removed and a
failure notice is attempted. -/
theorem C2_witness :
    lookupKey (track_user_leave falseBan trueMsg 1800 levEx st10).1.user_join_times
        (levEx.chat_id, levEx.user_id) = none ∧
    ((1800 : Int) - 0 < banWindowSeconds → falseBan levEx.chat_id levEx.user_id = false →
      Outbound.banFailNotice levEx.chat_id (trueMsg levEx.chat_id) ∈
        (track_user_leave falseBan trueMsg 1800 levEx st10).2) :=
  C2_leave_removes_record falseBan trueMsg 1800 levEx st10
    { join_time := 0, user_id := 42, chat_id := 100, username := "alice",
      chat_title := "Demo" }
    (by decide) (by decide) (by decide)

/-- C10: a membership change is treated as a leave only when the old status is
member/administrator/restricted and the new one is left/kicked; in particular
an old status of creator, or a new status of restricted, leaves the tracker
untouched, bans nobody and sends nothing. -/
theorem C10_ignored_transitions (banOk : Int → Int → Bool) (msgOk : Int → Bool)
    (now : Int) (m : MembershipEvent) (st : BotState) :
    (¬ (m.old_status ∈ leaveOldStatuses ∧ m.new_status ∈ leaveNewStatuses) →
      track_user_leave banOk msgOk now m st = (st, [])) ∧
    (m.old_status = "creator" ∨ m.new_status = "restricted" →
      handle_membership_changed banOk msgOk now m st = (st, [])) := by
  constructor
  · intro h
    unfold track_user_leave
    rw [if_neg h]
  · intro h
    have hj : ¬ (m.old_status ∈ joinOldStatuses ∧ m.new_status ∈ joinNewStatuses) := by
      rcases h with h | h
      · rintro ⟨h1, -⟩
        rw [h] at h1
        exact absurd h1 (by decide)
      · rintro ⟨-, h2⟩
        rw [h] at h2
        exact absurd h2 (by decide)
    have hl : ¬ (m.old_status ∈ leaveOldStatuses ∧ m.new_status ∈ leaveNewStatuses) := by
      rcases h with h | h
      · rintro ⟨h1, -⟩
        rw [h] at h1
        exact absurd h1 (by decide)
      · rintro ⟨-, h2⟩
        rw [h] at h2
        exact absurd h2 (by decide)
    simp [handle_membership_changed, track_user_join, track_user_leave, hj, hl]

/-- C10 witness: the chat creator leaving chat 100 is ignored entirely: the
tracked record for user 42 stays, no ban, no outbound call. -/
theorem C10_witness :
    handle_membership_changed trueBan trueMsg 500 creatorLeaveEx st10 = (st10, []) :=
  (C10_ignored_transitions trueBan trueMsg 500 creatorLeaveEx st10).2 (Or.inl rfl)

/-- C3: in a dispatch over a duplicate-free target list containing a chat `c`
for which some item send fails: `c` is counted failed, the success/failure
counts are exactly the all-items-succeed partition of the targets, every
chat's send sub-trace is determined by its own gateway behaviour alone, `c`
receives nothing after its first failing item, and every chat is attempted. -/
theorem C3_failure_isolation (sendOk : Int → BItem → Bool) (items : List BItem)
    (chats : List Int) (c : Int) (hnd : chats.Nodup) (hc : c ∈ chats)
    (hfail : items.all (sendOk c) = false) :
    c ∈ chats.filter (fun c' => !(items.all (sendOk c'))) ∧
    (dispatchLoop sendOk items chats).2.1 =
      (chats.filter fun c' => items.all (sendOk c')).length ∧
    (dispatchLoop sendOk items chats).2.2 =
      (chats.filter fun c' => !(items.all (sendOk c'))).length ∧
    (∀ c' ∈ chats, sendsTo (dispatchLoop sendOk items chats).1 c' =
      attemptsFor sendOk c' items) ∧
    (sendsTo (dispatchLoop sendOk items chats).1 c).map Prod.fst =
      items.take ((items.takeWhile (sendOk c)).length + 1) ∧
    (∀ c' ∈ chats, items ≠ [] →
      sendsTo (dispatchLoop sendOk items chats).1 c' ≠ []) := by
  refine ⟨List.mem_filter.mpr ⟨hc, by simp [hfail]⟩,
    (dispatchLoop_counts sendOk items chats).1,
    (dispatchLoop_counts sendOk items chats).2, ?_, ?_, ?_⟩
  · intro c' hc'
    exact sendsTo_dispatchLoop_mem sendOk items chats c' hnd hc'
  · rw [sendsTo_dispatchLoop_mem sendOk items chats c hnd hc]
    exact attemptsFor_fst_fail sendOk c items hfail
  · intro c' hc' hne
    rw [sendsTo_dispatchLoop_mem sendOk items chats c' hnd hc']
    exact attemptsFor_ne_nil sendOk c' items hne

/-- C3 witness: two items over chats 10 and 20, where chat 20 rejects the
second item. -/
theorem C3_witness :
    (20 : Int) ∈ chatsEx.filter (fun c' => !(itemsEx.all (sendOkEx c'))) ∧
    (dispatchLoop sendOkEx itemsEx chatsEx).2.1 =
      (chatsEx.filter fun c' => itemsEx.all (sendOkEx c')).length ∧
    (dispatchLoop sendOkEx itemsEx chatsEx).2.2 =
      (chatsEx.filter fun c' => !(itemsEx.all (sendOkEx c'))).length ∧
    (∀ c' ∈ chatsEx, sendsTo (dispatchLoop sendOkEx itemsEx chatsEx).1 c' =
      attemptsFor sendOkEx c' itemsEx) ∧
    (sendsTo (dispatchLoop sendOkEx itemsEx chatsEx).1 20).map Prod.fst =
      itemsEx.take ((itemsEx.takeWhile (sendOkEx 20)).length + 1) ∧
    (∀ c' ∈ chatsEx, itemsEx ≠ [] →
      sendsTo (dispatchLoop sendOkEx itemsEx chatsEx).1 c' ≠ []) :=
  C3_failure_isolation sendOkEx itemsEx chatsEx 20 (by decide) (by decide) (by decide)

/-- Unfolding of `send_broadcast` for an authorized sender with a live
session. -/
theorem send_broadcast_some (admins : List Int) (sendOk : Int → BItem → Bool)
    (sender_id : Int) (st : BotState) (sess : Session)
    (hadm : sender_id ∈ admins)
    (hs : lookupKey st.broadcast_data sender_id = some sess) :
    send_broadcast admins sendOk sender_id st =
      if sess.messages = [] then (st, SendResult.noMessages)
      else if st.active_chats = [] then (st, SendResult.noActiveChats)
      else
        ({ st with broadcast_data := eraseKey st.broadcast_data sender_id },
         SendResult.completed
           { succeeded := (dispatchLoop sendOk sess.messages st.active_chats).2.1,
             failed := (dispatchLoop sendOk sess.messages st.active_chats).2.2,
             items_per_chat := sess.messages.length,
             total_deliveries :=
               (dispatchLoop sendOk sess.messages st.active_chats).2.1 *
                 sess.messages.length }
           (dispatchLoop sendOk sess.messages st.active_chats).1) := by
  unfold send_broadcast
  rw [if_pos hadm, hs]

/-- C4 as amended: for an authorized operator, a missing or empty session is
refused; with a live non-empty session and a NON-EMPTY chat registry the
session is removed and exactly its items, in order, are handed to the
dispatcher, leaving no residual session; with an empty registry the call
refuses and the session is left in place. -/
theorem C4_take_for_send (admins : List Int) (sendOk : Int → BItem → Bool)
    (sender_id : Int) (st : BotState) (hadm : sender_id ∈ admins) :
    (lookupKey st.broadcast_data sender_id = none →
      send_broadcast admins sendOk sender_id st = (st, SendResult.noMessages)) ∧
    (∀ sess, lookupKey st.broadcast_data sender_id = some sess → sess.messages = [] →
      send_broadcast admins sendOk sender_id st = (st, SendResult.noMessages)) ∧
    (∀ sess, lookupKey st.broadcast_data sender_id = some sess → sess.messages ≠ [] →
      st.active_chats = [] →
      send_broadcast admins sendOk sender_id st = (st, SendResult.noActiveChats)) ∧
    (∀ sess, lookupKey st.broadcast_data sender_id = some sess → sess.messages ≠ [] →
      st.active_chats ≠ [] →
      send_broadcast admins sendOk sender_id st =
        ({ st with broadcast_data := eraseKey st.broadcast_data sender_id },
         SendResult.completed
           { succeeded := (dispatchLoop sendOk sess.messages st.active_chats).2.1,
             failed := (dispatchLoop sendOk sess.messages st.active_chats).2.2,
             items_per_chat := sess.messages.length,
             total_deliveries :=
               (dispatchLoop sendOk sess.messages st.active_chats).2.1 *
                 sess.messages.length }
           (dispatchLoop sendOk sess.messages st.active_chats).1) ∧
      lookupKey (send_broadcast admins sendOk sender_id st).1.broadcast_data
        sender_id = none) := by
  refine ⟨?_, ?_, ?_, ?_⟩
  · intro h
    unfold send_broadcast
    rw [if_pos hadm, h]
  · intro sess hs he
    rw [send_broadcast_some admins sendOk sender_id st sess hadm hs, if_pos he]
  · intro sess hs he hc
    rw [send_broadcast_some admins sendOk sender_id st sess hadm hs, if_neg he,
      if_pos hc]
  · intro sess hs he hc
    have hrun : send_broadcast admins sendOk sender_id st =
        ({ st with broadcast_data := eraseKey st.broadcast_data sender_id },
         SendResult.completed
           { succeeded := (dispatchLoop sendOk sess.messages st.active_chats).2.1,
             failed := (dispatchLoop sendOk sess.messages st.active_chats).2.2,
             items_per_chat := sess.messages.length,
             total_deliveries :=
               (dispatchLoop sendOk sess.messages st.active_chats).2.1 *
                 sess.messages.length }
           (dispatchLoop sendOk sess.messages st.active_chats).1) := by
      rw [send_broadcast_some admins sendOk sender_id st sess hadm hs, if_neg he,
        if_neg hc]
    refine ⟨hrun, ?_⟩
    rw [hrun]
    exact lookupKey_eraseKey_self st.broadcast_data sender_id

/-- C4 witness: the main path on a live two-item session with a non-empty
registry: the dispatch consumes exactly the staged items and the session is
gone afterwards. -/
theorem C4_witness :
    send_broadcast adminsEx sendOkEx 1 st5 =
      ({ st5 with broadcast_data := eraseKey st5.broadcast_data 1 },
       SendResult.completed
         { succeeded := (dispatchLoop sendOkEx sessEx.messages st5.active_chats).2.1,
           failed := (dispatchLoop sendOkEx sessEx.messages st5.active_chats).2.2,
           items_per_chat := sessEx.messages.length,
           total_deliveries :=
             (dispatchLoop sendOkEx sessEx.messages st5.active_chats).2.1 *
               sessEx.messages.length }
         (dispatchLoop sendOkEx sessEx.messages st5.active_chats).1) ∧
    lookupKey (send_broadcast adminsEx sendOkEx 1 st5).1.broadcast_data 1 = none :=
  (C4_take_for_send adminsEx sendOkEx 1 st5 (by decide)).2.2.2 sessEx
    (by decide) (by decide) (by decide)

/-- C4 counterexample: operator 1 is authorized and holds a live non-empty
session, yet with an empty chat registry `send_broadcast` returns early and
the session REMAINS — the claim's "leaving no residual session" fails. -/
theorem C4_counterexample :
    (1 : Int) ∈ adminsEx ∧
    lookupKey st4.broadcast_data 1 =
      some { messages := [BItem.text "hi"], start_time := 0 } ∧
    send_broadcast adminsEx trueSend 1 st4 = (st4, SendResult.noActiveChats) ∧
    lookupKey (send_broadcast adminsEx trueSend 1 st4).1.broadcast_data 1 ≠ none := by
  refine ⟨by decide, by decide, by decide, by decide⟩

/-- C5: every completed dispatch report satisfies
`totalDeliveries = succeeded × itemsPerChat`, where `itemsPerChat` is the
staged item count and `succeeded` counts the chats whose every item send
succeeded. -/
theorem C5_report_total (admins : List Int) (sendOk : Int → BItem → Bool)
    (sender_id : Int) (st st' : BotState) (report : BroadcastReport)
    (tr : List Outbound) (sess : Session)
    (hsess : lookupKey st.broadcast_data sender_id = some sess)
    (h : send_broadcast admins sendOk sender_id st =
      (st', SendResult.completed report tr)) :
    report.total_deliveries = report.succeeded * report.items_per_chat ∧
    report.items_per_chat = sess.messages.length ∧
    report.succeeded =
      (st.active_chats.filter fun c => sess.messages.all (sendOk c)).length := by
  by_cases ha : sender_id ∈ admins
  · rw [send_broadcast_some admins sendOk sender_id st sess ha hsess] at h
    by_cases h1 : sess.messages = []
    · rw [if_pos h1] at h
      simp at h
    · rw [if_neg h1] at h
      by_cases h2 : st.active_chats = []
      · rw [if_pos h2] at h
        simp at h
      · rw [if_neg h2] at h
        simp only [Prod.mk.injEq, SendResult.completed.injEq] at h
        obtain ⟨-, hrep, -⟩ := h
        subst hrep
        exact ⟨rfl, rfl, (dispatchLoop_counts sendOk sess.messages st.active_chats).1⟩
  · unfold send_broadcast at h
    rw [if_neg ha] at h
    simp at h

/-- C5 witness: the spec's scenario 3 shape: two items, two chats, one chat
failing: report = (succeeded 1, failed 1, itemsPerChat 2, total 2). -/
theorem C5_witness :
    reportEx.total_deliveries = reportEx.succeeded * reportEx.items_per_chat ∧
    reportEx.items_per_chat = sessEx.messages.length ∧
    reportEx.succeeded =
      (st5.active_chats.filter fun c => sessEx.messages.all (sendOkEx c)).length :=
  C5_report_total adminsEx sendOkEx 1 st5 st5' reportEx trEx sessEx
    (by decide) (by decide)

/-- C6: appending a collected message preserves insertion order (the new item
goes to the end of the staged sequence), and every chat the dispatcher
attempts receives a prefix of the item sequence, i.e. items in exactly
composition order. -/
theorem C6_insertion_and_send_order (m : MessageEvent) (st : BotState)
    (sess : Session) (item : BItem)
    (hs : lookupKey st.broadcast_data m.sender_id = some sess)
    (hcl : classify m.content = some item)
    (sendOk : Int → BItem → Bool) (items : List BItem) (chats : List Int)
    (hnd : chats.Nodup) :
    lookupKey (collect_broadcast_message m st).1.broadcast_data m.sender_id =
      some { sess with messages := sess.messages ++ [item] } ∧
    ∀ c ∈ chats, ∃ k,
      (sendsTo (dispatchLoop sendOk items chats).1 c).map Prod.fst =
        items.take k := by
  constructor
  · unfold collect_broadcast_message
    rw [hs, hcl]
    exact lookupKey_insertKey_self st.broadcast_data m.sender_id _
  · intro c hcm
    rw [sendsTo_dispatchLoop_mem sendOk items chats c hnd hcm]
    exact attemptsFor_fst_take sendOk c items

/-- C6 witness: a text message appended to the two-item session lands at the
end, and both target chats receive prefixes of the staged sequence. -/
theorem C6_witness :
    lookupKey (collect_broadcast_message msgEx st5).1.broadcast_data 1 =
      some { sessEx with messages := sessEx.messages ++ [BItem.text "c"] } ∧
    ∀ c ∈ chatsEx, ∃ k,
      (sendsTo (dispatchLoop sendOkEx itemsEx chatsEx).1 c).map Prod.fst =
        itemsEx.take k :=
  C6_insertion_and_send_order msgEx st5 sessEx (BItem.text "c") (by decide)
    (by decide) sendOkEx itemsEx chatsEx (by decide)

/-- C7 as amended: begin-broadcast, send-broadcast and show-stats from a
sender outside the allow-list reply not-authorized and mutate nothing;
cancel-broadcast performs NO authorization check — for a sender with no live
session it replies "no active broadcast" and mutates nothing; and plain
messages from a sessionless sender are ignored by the session store. -/
theorem C7_unauthorized_commands (admins : List Int) (sendOk : Int → BItem → Bool)
    (now : Int) (sender_id : Int) (st : BotState) (h : sender_id ∉ admins) :
    start_broadcast admins now sender_id st =
      (st, [Outbound.replyText notAuthorizedMsg]) ∧
    send_broadcast admins sendOk sender_id st = (st, SendResult.notAuthorized) ∧
    stats admins sender_id st = (st, [Outbound.replyText notAuthorizedMsg]) ∧
    (lookupKey st.broadcast_data sender_id = none →
      cancel_broadcast sender_id st =
        (st, [Outbound.replyText noActiveBroadcastMsg])) ∧
    (∀ m : MessageEvent, m.sender_id = sender_id →
      lookupKey st.broadcast_data sender_id = none →
      collect_broadcast_message m st = (st, [])) := by
  refine ⟨?_, ?_, ?_, ?_, ?_⟩
  · unfold start_broadcast
    rw [if_neg h]
  · unfold send_broadcast
    rw [if_neg h]
  · unfold stats
    rw [if_neg h]
  · intro hn
    unfold cancel_broadcast
    rw [hn]
  · intro m hm hn
    unfold collect_broadcast_message
    rw [hm, hn]

/-- C7 witness: sender 2 is not allow-listed; the three gated commands refuse
without mutation, and with no live session cancel replies its own message
while plain messages are ignored. -/
theorem C7_witness :
    start_broadcast adminsEx 0 2 emptyState =
      (emptyState, [Outbound.replyText notAuthorizedMsg]) ∧
    send_broadcast adminsEx trueSend 2 emptyState =
      (emptyState, SendResult.notAuthorized) ∧
    stats adminsEx 2 emptyState = (emptyState, [Outbound.replyText notAuthorizedMsg]) ∧
    (lookupKey emptyState.broadcast_data 2 = none →
      cancel_broadcast 2 emptyState =
        (emptyState, [Outbound.replyText noActiveBroadcastMsg])) ∧
    (∀ m : MessageEvent, m.sender_id = 2 →
      lookupKey emptyState.broadcast_data 2 = none →
      collect_broadcast_message m emptyState = (emptyState, [])) :=
  C7_unauthorized_commands adminsEx trueSend 0 2 emptyState (by decide)

/-- C7 counterexample: an unauthorized sender invoking cancel-broadcast does
NOT receive the not-authorized reply the claim promises — the handler has no
allow-list check and answers "no active broadcast" instead. -/
theorem C7_counterexample :
    (2 : Int) ∉ adminsEx ∧
    cancel_broadcast 2 emptyState =
      (emptyState, [Outbound.replyText noActiveBroadcastMsg]) ∧
    Outbound.replyText notAuthorizedMsg ∉ (cancel_broadcast 2 emptyState).2 := by
  refine ⟨by decide, by decide, by decide⟩

/-! Frame lemmas: which store each handler leaves untouched. -/

theorem track_user_leave_active_chats (banOk : Int → Int → Bool) (msgOk : Int → Bool)
    (now : Int) (ev : MembershipEvent) (st : BotState) :
    (track_user_leave banOk msgOk now ev st).1.active_chats = st.active_chats := by
  unfold track_user_leave
  split
  · split <;> rfl
  · rfl

theorem track_user_join_chats_mono (msgOk : Int → Bool) (now : Int)
    (ev : MembershipEvent) (st : BotState) :
    ∀ c ∈ st.active_chats, c ∈ (track_user_join msgOk now ev st).1.active_chats := by
  intro c hc
  unfold track_user_join
  split
  · exact mem_insertChat_of_mem ev.chat_id hc
  · exact hc

theorem send_broadcast_active_chats (admins : List Int) (sendOk : Int → BItem → Bool)
    (sender_id : Int) (st : BotState) :
    (send_broadcast admins sendOk sender_id st).1.active_chats = st.active_chats := by
  unfold send_broadcast
  split
  · split
    · rfl
    · split
      · rfl
      · split <;> rfl
  · rfl

theorem collect_active_chats (m : MessageEvent) (st : BotState) :
    (collect_broadcast_message m st).1.active_chats = st.active_chats := by
  unfold collect_broadcast_message
  split
  · rfl
  · split <;> rfl

theorem cancel_active_chats (sender_id : Int) (st : BotState) :
    (cancel_broadcast sender_id st).1.active_chats = st.active_chats := by
  unfold cancel_broadcast
  split <;> rfl

theorem stats_state (admins : List Int) (sender_id : Int) (st : BotState) :
    (stats admins sender_id st).1 = st := by
  unfold stats
  split <;> rfl

theorem start_broadcast_active_chats (admins : List Int) (now : Int)
    (sender_id : Int) (st : BotState) :
    (start_broadcast admins now sender_id st).1.active_chats = st.active_chats := by
  unfold start_broadcast
  split <;> rfl

theorem track_user_join_broadcast_data (msgOk : Int → Bool) (now : Int)
    (ev : MembershipEvent) (st : BotState) :
    (track_user_join msgOk now ev st).1.broadcast_data = st.broadcast_data := by
  unfold track_user_join
  split <;> rfl

theorem track_user_leave_broadcast_data (banOk : Int → Int → Bool) (msgOk : Int → Bool)
    (now : Int) (ev : MembershipEvent) (st : BotState) :
    (track_user_leave banOk msgOk now ev st).1.broadcast_data = st.broadcast_data := by
  unfold track_user_leave
  split
  · split <;> rfl
  · rfl

/-- Every single inbound event can only grow the chat registry. -/
theorem handleEvent_chats_mono (admins : List Int) (banOk : Int → Int → Bool)
    (sendOk : Int → BItem → Bool) (msgOk : Int → Bool) (e : Event) (st : BotState) :
    ∀ c ∈ st.active_chats,
      c ∈ (handleEvent admins banOk sendOk msgOk e st).active_chats := by
  intro c hc
  cases e with
  | cmdStart sid cid =>
    cases cid with
    | none => exact hc
    | some c0 => exact mem_insertChat_of_mem c0 hc
  | cmdHelp sid chid => exact hc
  | cmdStats sid chid =>
    simp only [handleEvent, stats_state]
    exact hc
  | cmdBroadcast sid now =>
    simp only [handleEvent, start_broadcast_active_chats]
    exact hc
  | cmdSendBroadcast sid =>
    simp only [handleEvent, send_broadcast_active_chats]
    exact hc
  | cmdCancelBroadcast sid =>
    simp only [handleEvent, cancel_active_chats]
    exact hc
  | message m =>
    simp only [handleEvent, collect_active_chats]
    exact hc
  | membershipChanged now m =>
    simp only [handleEvent, handle_membership_changed]
    rw [track_user_leave_active_chats]
    exact track_user_join_chats_mono msgOk now m st c hc

/-- C8 as amended: the chat registry grows monotonically: no handler ever
removes a chat id, so after processing any event sequence the registry is a
superset of what it was before.  (Chat ids are ADDED only by the start
command and by join transitions; other chat-carrying events do not register
their chat — see the counterexample.) -/
theorem C8_registry_monotone (admins : List Int) (banOk : Int → Int → Bool)
    (sendOk : Int → BItem → Bool) (msgOk : Int → Bool) (es : List Event)
    (st : BotState) :
    ∀ c ∈ st.active_chats,
      c ∈ (runEvents admins banOk sendOk msgOk es st).active_chats := by
  induction es generalizing st with
  | nil =>
    intro c hc
    exact hc
  | cons e rest ih =>
    intro c hc
    simp only [runEvents, List.foldl_cons]
    exact ih (handleEvent admins banOk sendOk msgOk e st) c
      (handleEvent_chats_mono admins banOk sendOk msgOk e st c hc)

/-- C8 witness: chat 7, already registered, survives a help command. -/
theorem C8_witness :
    (7 : Int) ∈
      (runEvents adminsEx trueBan trueSend trueMsg [Event.cmdHelp 1 5] st7).active_chats :=
  C8_registry_monotone adminsEx trueBan trueSend trueMsg [Event.cmdHelp 1 5] st7 7
    (by decide)

/-- C8 counterexample: a plain message in chat 5 from operator 1 (whose
session even collects the item, so the event is certainly processed) does NOT
add chat 5 to the registry, refuting "processing any inbound event that
carries a chat identity adds that chat id". -/
theorem C8_counterexample :
    (5 : Int) ∉ (handleEvent adminsEx trueBan trueSend trueMsg
        (Event.message { sender_id := 1, chat_id := 5, content := MsgContent.text "hi" })
        st8).active_chats := by
  decide

/-- C9: the invariant "every key of the broadcast session store is an
allow-listed admin" is preserved by every handler: begin-broadcast inserts
only after the allow-list check, collection only rewrites an existing key,
send/cancel only erase. -/
theorem C9_sessions_only_admins (admins : List Int) (banOk : Int → Int → Bool)
    (sendOk : Int → BItem → Bool) (msgOk : Int → Bool) (e : Event) (st : BotState)
    (hinv : ∀ k ∈ keysOf st.broadcast_data, k ∈ admins) :
    ∀ k ∈ keysOf (handleEvent admins banOk sendOk msgOk e st).broadcast_data,
      k ∈ admins := by
  intro k hk
  cases e with
  | cmdStart sid cid =>
    cases cid with
    | none => exact hinv k hk
    | some c0 => exact hinv k hk
  | cmdHelp sid chid => exact hinv k hk
  | cmdStats sid chid =>
    rw [show (handleEvent admins banOk sendOk msgOk (Event.cmdStats sid chid) st) =
      (stats admins sid st).1 from rfl, stats_state] at hk
    exact hinv k hk
  | cmdBroadcast sid now =>
    by_cases h : sid ∈ admins
    · simp only [handleEvent, start_broadcast, if_pos h] at hk
      rcases mem_keysOf_insertKey st.broadcast_data sid k _ hk with rfl | hk2
      · exact h
      · exact hinv k hk2
    · simp only [handleEvent, start_broadcast, if_neg h] at hk
      exact hinv k hk
  | cmdSendBroadcast sid =>
    by_cases h : sid ∈ admins
    · cases hl : lookupKey st.broadcast_data sid with
      | none =>
        simp only [handleEvent, send_broadcast, if_pos h, hl] at hk
        exact hinv k hk
      | some sess =>
        rw [show (handleEvent admins banOk sendOk msgOk (Event.cmdSendBroadcast sid) st) =
          (send_broadcast admins sendOk sid st).1 from rfl,
          send_broadcast_some admins sendOk sid st sess h hl] at hk
        by_cases h1 : sess.messages = []
        · rw [if_pos h1] at hk
          exact hinv k hk
        · rw [if_neg h1] at hk
          by_cases h2 : st.active_chats = []
          · rw [if_pos h2] at hk
            exact hinv k hk
          · rw [if_neg h2] at hk
            exact hinv k (mem_keysOf_eraseKey st.broadcast_data sid k hk)
    · simp only [handleEvent, send_broadcast, if_neg h] at hk
      exact hinv k hk
  | cmdCancelBroadcast sid =>
    cases hl : lookupKey st.broadcast_data sid with
    | none =>
      simp only [handleEvent, cancel_broadcast, hl] at hk
      exact hinv k hk
    | some sess =>
      simp only [handleEvent, cancel_broadcast, hl] at hk
      exact hinv k (mem_keysOf_eraseKey st.broadcast_data sid k hk)
  | message m =>
    cases hl : lookupKey st.broadcast_data m.sender_id with
    | none =>
      simp only [handleEvent, collect_broadcast_message, hl] at hk
      exact hinv k hk
    | some sess =>
      cases hcl : classify m.content with
      | none =>
        simp only [handleEvent, collect_broadcast_message, hl, hcl] at hk
        exact hinv k hk
      | some item =>
        simp only [handleEvent, collect_broadcast_message, hl, hcl] at hk
        rcases mem_keysOf_insertKey st.broadcast_data m.sender_id k _ hk with hke | hk2
        · subst hke
          exact hinv _ (lookupKey_some_mem_keysOf st.broadcast_data _ sess hl)
        · exact hinv k hk2
  | membershipChanged now m =>
    simp only [handleEvent, handle_membership_changed] at hk
    rw [track_user_leave_broadcast_data, track_user_join_broadcast_data] at hk
    exact hinv k hk

/-- C9 witness: starting from the empty store, a begin-broadcast by admin 1
creates only the key 1, which the invariant certifies to be allow-listed. -/
theorem C9_witness : (1 : Int) ∈ adminsEx :=
  C9_sessions_only_admins adminsEx trueBan trueSend trueMsg (Event.cmdBroadcast 1 0)
    emptyState (by intro k hk; simp [keysOf, emptyState] at hk) 1 (by decide)

end LeaveBot
